import Mathlib

/-!
Verification of the DDNS updater provider layer: the DonDominio provider
(internal/settings/providers/dondominio/dondominio.go) and the Aliyun provider
(internal/settings/providers/aliyun/provider.go), together with the parts of
Go's `net` package (net.IP, To4, Equal, ParseIP, IP.String) and
strings.EqualFold that those files use.

IP addresses are modelled as byte lists (Go's `net.IP` is a byte slice).
JSON decoding of configuration payloads and of response bodies is modelled by
taking the decoded structure (or an explicit decode-failure marker) as input,
mirroring the schema declared in the Go source.  A Go `return x, err` pair is
modelled as `UpdateReturn.ret (newIP : Option IP) (err : Option UpdateError)`;
a Go runtime panic (out-of-range slice index) is the distinct outcome
`UpdateReturn.panicked`.
-/

/-- Go net.IP: a byte slice, length 4 or 16 for valid addresses. -/
abbrev IP := List Nat

/-- Go net.v4InV6Prefix: the 12-byte prefix of an IPv4-in-IPv6 address. -/
def v4InV6Prefix : List Nat := [0, 0, 0, 0, 0, 0, 0, 0, 0, 0, 0xff, 0xff]

/-- Go net.IP.To4: the 4-byte form when the address is representable in 4
bytes (length 4, or length 16 with the v4-in-v6 prefix), else nil (none). -/
def ipTo4 (ip : IP) : Option IP :=
  if ip.length = 4 then some ip
  else if ip.length = 16 ∧ ip.take 12 = v4InV6Prefix then some (ip.drop 12)
  else none

/-- Go net.IP.Equal: byte equality, with a 4-byte address equal to its
16-byte v4-in-v6 form. -/
def ipEqual (ip x : IP) : Bool :=
  if ip.length = x.length then ip == x
  else if ip.length = 4 ∧ x.length = 16 then
    (x.take 12 == v4InV6Prefix) && (ip == x.drop 12)
  else if ip.length = 16 ∧ x.length = 4 then
    (ip.take 12 == v4InV6Prefix) && (x == ip.drop 12)
  else false

/-- Decimal digit test (Go: c is in 0..9). -/
def isDigit (c : Char) : Bool := '0' ≤ c && c ≤ '9'

/-- Hexadecimal digit test. -/
def isHexDigit (c : Char) : Bool :=
  isDigit c || ('a' ≤ c && c ≤ 'f') || ('A' ≤ c && c ≤ 'F')

/-- Value of a hexadecimal digit. -/
def hexVal (c : Char) : Nat :=
  if '0' ≤ c && c ≤ '9' then c.toNat - 48
  else if 'a' ≤ c && c ≤ 'f' then c.toNat - 87
  else c.toNat - 55

/-- Split a character list on a separator; n separators give n+1 pieces. -/
def splitOnChar (sep : Char) : List Char → List (List Char)
  | [] => [[]]
  | c :: cs =>
    let rest := splitOnChar sep cs
    if c = sep then [] :: rest
    else
      match rest with
      | [] => [[c]]
      | piece :: pieces => (c :: piece) :: pieces

/-- One dotted-decimal field of an IPv4 address: 1 to 3 decimal digits, no
leading zero, value at most 255 (Go net.ParseIP's IPv4 field rule). -/
def parseV4Field (cs : List Char) : Option Nat :=
  if cs = [] ∨ ¬ cs.all isDigit ∨ cs.length > 3 then none
  else if cs.length > 1 ∧ cs.headD '0' = '0' then none
  else
    let n := cs.foldl (fun acc c => acc * 10 + (c.toNat - 48)) 0
    if n ≤ 255 then some n else none

/-- Go net.ParseIP on dotted-decimal text: four fields, returned in the
16-byte IPv4-in-IPv6 form Go uses. -/
def parseIPv4 (s : String) : Option IP :=
  match (splitOnChar '.' s.data).mapM parseV4Field with
  | some [a, b, c, d] => some (v4InV6Prefix ++ [a, b, c, d])
  | _ => none

/-- One 16-bit group of an IPv6 address: 1 to 4 hexadecimal digits. -/
def parseV6Group (cs : List Char) : Option Nat :=
  if cs = [] ∨ cs.length > 4 ∨ ¬ cs.all isHexDigit then none
  else some (cs.foldl (fun acc c => acc * 16 + hexVal c) 0)

/-- Locate the first "::" in a character list, returning the text on each
side of it. -/
def splitDoubleColon : List Char → Option (List Char × List Char)
  | [] => none
  | ':' :: ':' :: rest => some ([], rest)
  | c :: rest => (splitDoubleColon rest).map (fun p => (c :: p.1, p.2))

/-- Groups of one side of a "::": empty text is zero groups. -/
def groupsOf (cs : List Char) : Option (List Nat) :=
  if cs = [] then some []
  else (splitOnChar ':' cs).mapM parseV6Group

/-- Expand 16-bit groups to bytes, high byte first. -/
def groupsToBytes (gs : List Nat) : List Nat :=
  gs.flatMap (fun g => [g / 256 % 256, g % 256])

/-- Go net.ParseIP on colon-separated text: eight groups, or a "::" that
expands to at least one zero group.  (The embedded dotted-quad suffix form
"::ffff:a.b.c.d" is not modelled; no property here depends on it.) -/
def parseIPv6 (s : String) : Option IP :=
  let cs := s.data
  match splitDoubleColon cs with
  | none =>
    match (splitOnChar ':' cs).mapM parseV6Group with
    | some gs => if gs.length = 8 then some (groupsToBytes gs) else none
    | none => none
  | some (l, r) =>
    match groupsOf l, groupsOf r with
    | some gl, some gr =>
      if gl.length + gr.length ≤ 7 then
        some (groupsToBytes (gl ++ List.replicate (8 - gl.length - gr.length) 0 ++ gr))
      else none
    | _, _ => none

/-- Which family Go net.ParseIP dispatches to: the first '.' or ':' in the
text decides (true for '.', false for ':'). -/
def ipTextKind : List Char → Option Bool
  | [] => none
  | '.' :: _ => some true
  | ':' :: _ => some false
  | _ :: cs => ipTextKind cs

/-- Go net.ParseIP: nil (none) when the text is not a valid address. -/
def parseIP (s : String) : Option IP :=
  match ipTextKind s.data with
  | some true => parseIPv4 s
  | some false => parseIPv6 s
  | none => none

/-- Lowercase hexadecimal digit character. -/
def hexChar (n : Nat) : Char :=
  if n < 10 then Char.ofNat (48 + n) else Char.ofNat (87 + n)

/-- A 16-bit group rendered in lowercase hexadecimal without leading
zeros (Go's appendHex). -/
def hexOfGroup (g : Nat) : String :=
  let ds := [g / 4096 % 16, g / 256 % 16, g / 16 % 16, g % 16]
  let ds :=
    match ds with
    | 0 :: 0 :: 0 :: rest => rest
    | 0 :: 0 :: rest => rest
    | 0 :: rest => rest
    | rest => rest
  String.mk (ds.map hexChar)

/-- Length of the run of zero groups at the head of the list. -/
def leadZeros : List Nat → Nat
  | 0 :: rest => leadZeros rest + 1
  | _ => 0

/-- Leftmost longest run of zero groups: (start index, length), as in Go
net.IP.String's e0/e1 scan (strict improvement keeps the leftmost). -/
def bestZeroRun : List Nat → Nat → Nat × Nat → Nat × Nat
  | [], _, best => best
  | g :: rest, i, best =>
    let run := leadZeros (g :: rest)
    bestZeroRun rest (i + 1) (if run > best.2 then (i, run) else best)

/-- Join 16-bit groups with ':'. -/
def joinGroups (gs : List Nat) : String :=
  String.intercalate ":" (gs.map hexOfGroup)

/-- RFC 5952 rendering of eight 16-bit groups: the leftmost longest run of
at least two zero groups becomes "::" (Go net.IP.String's IPv6 branch). -/
def ipv6String (gs : List Nat) : String :=
  let best := bestZeroRun gs 0 (0, 0)
  if best.2 ≥ 2 then
    joinGroups (gs.take best.1) ++ "::" ++ joinGroups (gs.drop (best.1 + best.2))
  else joinGroups gs

/-- Pair up bytes into 16-bit groups, high byte first. -/
def toGroups : List Nat → List Nat
  | b1 :: b0 :: rest => (b1 * 256 + b0) :: toGroups rest
  | _ => []

/-- Go net.IP.String: dotted decimal when 4-byte representable, RFC 5952
text for 16-byte addresses, "<nil>" for the empty slice, "?" plus hex
otherwise (abbreviated to "?"; unreachable for valid addresses). -/
def ipString (ip : IP) : String :=
  if ip.length = 0 then "<nil>"
  else
    match ipTo4 ip with
    | some p4 => String.intercalate "." (p4.map (fun b => toString b))
    | none => if ip.length = 16 then ipv6String (toGroups ip) else "?"

/-- ASCII case folding of one character. -/
def charToLower (c : Char) : Char :=
  if 'A' ≤ c ∧ c ≤ 'Z' then Char.ofNat (c.toNat + 32) else c

/-- Go strings.EqualFold, modelled as case-insensitive comparison by
character lowering (the hostnames compared here are ASCII). -/
def equalFold (s t : String) : Bool :=
  s.data.map charToLower == t.data.map charToLower

/-- pkg/publicip/ipversion: the configured IP version preference, carried
through the providers unchanged. -/
inductive IPVersion
  | ip4or6
  | ip4
  | ip6
deriving DecidableEq, Repr

/-- internal/settings/errors: the construction-time (validation) error
kinds used by these two providers. -/
inductive SettingsError
  | errEmptyUsername
  | errEmptyPassword
  | errEmptyName
  | errHostOnlyAt
  | errEmptyAccessKeyID
  | errEmptyAccessKeySecret
deriving DecidableEq, Repr

/-- internal/settings/errors plus transport/SDK failures: the update-time
error kinds used by these two providers.  fmt.Errorf wrapping is modelled
by carrying the formatted-in values as constructor arguments. -/
inductive UpdateError
  | errBadHTTPStatus (status : Nat) (bodyLine : String)
  | errUnmarshalResponse (msg : String)
  | errUnsuccessfulResponse (msg : String) (code : Int)
  | errIPReceivedMalformed (s : String)
  | errIPReceivedMismatch (s : String)
  | errRecordNotFound
  | transportError (msg : String)
  | sdkError (msg : String)
deriving DecidableEq, Repr

/-- The (newIP, err) pair a provider's Update returns, or a Go runtime
panic. -/
inductive UpdateReturn
  | ret (newIP : Option IP) (err : Option UpdateError)
  | panicked (msg : String)
deriving DecidableEq, Repr

namespace DonDominio

/-- The provider-specific JSON settings payload, already decoded (Go
decodes it with json.Unmarshal in New). -/
structure ExtraSettings where
  username : String
  password : String
  name : String
deriving DecidableEq, Repr

/-- dondominio.provider. -/
structure Provider where
  domain : String
  host : String
  ipVersion : IPVersion
  username : String
  password : String
  name : String
deriving DecidableEq, Repr

/-- dondominio provider.isValid: field-presence checks in declaration
order, then the structural host constraint. -/
def Provider.isValid (p : Provider) : Option SettingsError :=
  if p.username.length = 0 then some .errEmptyUsername
  else if p.password.length = 0 then some .errEmptyPassword
  else if p.name.length = 0 then some .errEmptyName
  else if p.host ≠ "@" then some .errHostOnlyAt
  else none

/-- dondominio.New: default an empty host to "@", build the provider,
validate it.  Takes no transport: construction performs no network call. -/
def New (extraSettings : ExtraSettings) (domain host : String)
    (ipVersion : IPVersion) : Except SettingsError Provider :=
  let host := if host.length = 0 then "@" else host
  let p : Provider :=
    { domain := domain, host := host, ipVersion := ipVersion,
      username := extraSettings.username, password := extraSettings.password,
      name := extraSettings.name }
  match p.isValid with
  | some e => .error e
  | none => .ok p

/-- dondominio provider.Host. -/
def Provider.Host (p : Provider) : String := p.host

/-- dondominio provider.Domain. -/
def Provider.Domain (p : Provider) : String := p.domain

/-- The url.Values the dondominio Update sets on the request body, as the
(key, value) pairs in the order they are set. -/
def updateValues (p : Provider) (ip : IP) : List (String × String) :=
  let base := [("apiuser", p.username), ("apipasswd", p.password),
               ("domain", p.domain), ("name", p.name)]
  if (ipTo4 ip).isSome then base ++ [("ipv4", ipString ip)]
  else base ++ [("ipv6", ipString ip)]

/-- One entry of the gluerecords array in the response schema. -/
structure GlueRecord where
  ipv4 : String
  ipv6 : String
deriving DecidableEq, Repr

/-- The responseData object of the response schema. -/
structure ResponseData where
  gluerecords : List GlueRecord
deriving DecidableEq, Repr

/-- The anonymous response struct decoded in dondominio Update. -/
structure ResponseBody where
  success : Bool
  errorCode : Int
  errorCodeMsg : String
  responseData : ResponseData
deriving DecidableEq, Repr

/-- Outcome of decoder.Decode on the response body: the decoded structure
or a decode failure with its message. -/
inductive DecodedBody
  | malformed (msg : String)
  | decoded (b : ResponseBody)
deriving DecidableEq, Repr

/-- The transport response: HTTP status, the single-line body excerpt used
in the bad-status error, and the decode outcome of the body. -/
structure HTTPResponse where
  statusCode : Nat
  bodyLine : String
  body : DecodedBody
deriving DecidableEq, Repr

/-- dondominio provider.Update after the request is sent: the transport
either fails (client.Do error) or yields a response, which is checked for
HTTP status 200, decoded, checked for the application-level success flag,
and then the glue record's family-matching IP field is parsed and compared
with the requested IP.  `GlueRecords[0]` on an empty array is a Go runtime
panic, modelled as `.panicked`. -/
def Update (p : Provider) (ip : IP) (transport : Except String HTTPResponse) :
    UpdateReturn :=
  let isIPv4 := (ipTo4 ip).isSome
  match transport with
  | .error e => .ret none (some (.transportError e))
  | .ok response =>
    if response.statusCode ≠ 200 then
      .ret none (some (.errBadHTTPStatus response.statusCode response.bodyLine))
    else
      match response.body with
      | .malformed msg => .ret none (some (.errUnmarshalResponse msg))
      | .decoded responseData =>
        if !responseData.success then
          .ret none (some (.errUnsuccessfulResponse
            responseData.errorCodeMsg responseData.errorCode))
        else
          match responseData.responseData.gluerecords with
          | [] => .panicked "index out of range [0] with length 0"
          | g :: _ =>
            let ipStr := if isIPv4 then g.ipv4 else g.ipv6
            match parseIP ipStr with
            | none => .ret none (some (.errIPReceivedMalformed ipStr))
            | some newIP =>
              if ipEqual ip newIP then .ret (some newIP) none
              else .ret none (some (.errIPReceivedMismatch (ipString newIP)))

end DonDominio

namespace Aliyun

/-- The provider-specific JSON settings payload, already decoded. -/
structure ExtraSettings where
  access_key_id : String
  access_secret : String
  region : String
deriving DecidableEq, Repr

/-- aliyun.Provider. -/
structure Provider where
  domain : String
  host : String
  ipVersion : IPVersion
  accessKeyID : String
  accessSecret : String
  region : String
deriving DecidableEq, Repr

/-- aliyun Provider.isValid: the two credential field-presence checks, in
declaration order. -/
def Provider.isValid (p : Provider) : Option SettingsError :=
  if p.accessKeyID = "" then some .errEmptyAccessKeyID
  else if p.accessSecret = "" then some .errEmptyAccessKeySecret
  else none

/-- aliyun.New: build the provider with region defaulting to "cn-hangzhou"
when the payload's region is empty, then validate.  The host is stored
verbatim (no defaulting).  Takes no transport: construction performs no
network call. -/
def New (extraSettings : ExtraSettings) (domain host : String)
    (ipVersion : IPVersion) : Except SettingsError Provider :=
  let p : Provider :=
    { domain := domain, host := host, ipVersion := ipVersion,
      accessKeyID := extraSettings.access_key_id,
      accessSecret := extraSettings.access_secret,
      region := "cn-hangzhou" }
  let p := if extraSettings.region ≠ "" then
    { p with region := extraSettings.region } else p
  match p.isValid with
  | some e => .error e
  | none => .ok p

/-- aliyun Provider.Host. -/
def Provider.Host (p : Provider) : String := p.host

/-- aliyun Provider.Domain. -/
def Provider.Domain (p : Provider) : String := p.domain

/-- One record of the DescribeDomainRecords response (the fields the code
reads). -/
structure Record where
  RR : String
  RecordId : String
deriving DecidableEq, Repr

/-- The DescribeDomainRecords response: resp.DomainRecords.Record. -/
structure DescribeDomainRecordsResponse where
  record : List Record
deriving DecidableEq, Repr

/-- The UpdateDomainRecord request fields the code sets.  `Type_` models
the Go SDK field named Type. -/
structure UpdateDomainRecordRequest where
  Value : String
  Type_ : String
  RR : String
  RecordId : String
deriving DecidableEq, Repr

/-- The SDK interactions of one aliyun Update call: client construction
may fail, the list call may fail or yield a response, and the single
update call (when issued) may fail. -/
structure Transport where
  newClientError : Option String
  describeResult : Except String DescribeDomainRecordsResponse
  updateError : Option String
deriving Repr

/-- The record-scanning loop of aliyun Update: the first record whose RR
matches the host case-insensitively gives its RecordId (then break); no
match leaves the empty string. -/
def findRecordID (records : List Record) (host : String) : String :=
  match records with
  | [] => ""
  | record :: rest =>
    if equalFold record.RR host then record.RecordId
    else findRecordID rest host

/-- The record type aliyun Update selects: A unless the IP has no 4-byte
form, else AAAA. -/
def recordType (ip : IP) : String :=
  if (ipTo4 ip).isSome then "A" else "AAAA"

/-- aliyun Provider.Update: create the SDK client, list the domain's
records, scan for the host's record identifier (empty means not found),
then issue the update and return `ip, err` — the requested IP is returned
in the IP slot even when the update call's error is non-nil.  The second
component lists the update requests actually issued. -/
def Update (p : Provider) (ip : IP) (tr : Transport) :
    UpdateReturn × List UpdateDomainRecordRequest :=
  let rt := recordType ip
  match tr.newClientError with
  | some e => (.ret none (some (.sdkError e)), [])
  | none =>
    match tr.describeResult with
    | .error e => (.ret none (some (.sdkError e)), [])
    | .ok resp =>
      let recordID := findRecordID resp.record p.host
      if recordID = "" then (.ret none (some .errRecordNotFound), [])
      else
        let request : UpdateDomainRecordRequest :=
          { Value := ipString ip, Type_ := rt, RR := p.host,
            RecordId := recordID }
        (.ret (some ip) (tr.updateError.map .sdkError), [request])

end Aliyun

/-! Helper lemmas about the record-scanning loop. -/

/-- When no record matches case-insensitively, the scan leaves the empty
identifier. -/
theorem findRecordID_of_no_match :
    ∀ (records : List Aliyun.Record) (host : String),
    (∀ r ∈ records, equalFold r.RR host = false) →
    Aliyun.findRecordID records host = ""
  | [], _, _ => rfl
  | r :: rest, host, h => by
    have hr : equalFold r.RR host = false := h r (by simp)
    simp only [Aliyun.findRecordID, hr, Bool.false_eq_true, if_false]
    exact findRecordID_of_no_match rest host (fun r' hm => h r' (by simp [hm]))

/-- The scan returns the identifier of the first case-insensitively
matching record. -/
theorem findRecordID_first_match :
    ∀ (pre : List Aliyun.Record) (r : Aliyun.Record) (post : List Aliyun.Record)
      (host : String),
    (∀ r' ∈ pre, equalFold r'.RR host = false) →
    equalFold r.RR host = true →
    Aliyun.findRecordID (pre ++ r :: post) host = r.RecordId
  | [], r, post, host, _, hr => by
    simp only [List.nil_append, Aliyun.findRecordID, hr, if_true]
  | q :: pre, r, post, host, h, hr => by
    have hq : equalFold q.RR host = false := h q (by simp)
    simp only [List.cons_append, Aliyun.findRecordID, hq, Bool.false_eq_true, if_false]
    exact findRecordID_first_match pre r post host (fun r' hm => h r' (by simp [hm])) hr

/-! Concrete inputs used by witnesses and counterexamples. -/

/-- 203.0.113.5 in the 16-byte form net.ParseIP produces. -/
def ip2030113v5 : IP := v4InV6Prefix ++ [203, 0, 113, 5]

/-- 203.0.113.9 in the 16-byte form net.ParseIP produces. -/
def ip2030113v9 : IP := v4InV6Prefix ++ [203, 0, 113, 9]

/-- The spec's concrete DonDominio configuration payload. -/
def ddSpecSettings : DonDominio.ExtraSettings :=
  { username := "u", password := "p", name := "n" }

/-- The provider the spec's concrete DonDominio configuration builds. -/
def ddSpecProvider : DonDominio.Provider :=
  { domain := "example.com", host := "@", ipVersion := .ip4or6,
    username := "u", password := "p", name := "n" }

/-- The spec's concrete success response: glue record reporting
203.0.113.5. -/
def ddOkResponse : DonDominio.HTTPResponse :=
  { statusCode := 200, bodyLine := "",
    body := .decoded
      { success := true, errorCode := 0, errorCodeMsg := "",
        responseData := { gluerecords := [⟨"203.0.113.5", ""⟩] } } }

/-- The spec's mismatch response: glue record reporting 203.0.113.9. -/
def ddMismatchResponse : DonDominio.HTTPResponse :=
  { statusCode := 200, bodyLine := "",
    body := .decoded
      { success := true, errorCode := 0, errorCodeMsg := "",
        responseData := { gluerecords := [⟨"203.0.113.9", ""⟩] } } }

/-- A success response whose gluerecords array is empty. -/
def ddEmptyGlueResponse : DonDominio.HTTPResponse :=
  { statusCode := 200, bodyLine := "",
    body := .decoded
      { success := true, errorCode := 0, errorCodeMsg := "",
        responseData := { gluerecords := [] } } }

/-- An HTTP 200 response whose body carries success=false. -/
def ddFailResponse : DonDominio.HTTPResponse :=
  { statusCode := 200, bodyLine := "",
    body := .decoded
      { success := false, errorCode := 1010, errorCodeMsg := "Invalid auth",
        responseData := { gluerecords := [] } } }

/-- An HTTP 200 response whose body fails to decode. -/
def ddMalformedResponse : DonDominio.HTTPResponse :=
  { statusCode := 200, bodyLine := "", body := .malformed "unexpected EOF" }

/-- A valid Aliyun provider. -/
def alSpecProvider : Aliyun.Provider :=
  { domain := "example.com", host := "@", ipVersion := .ip4or6,
    accessKeyID := "k", accessSecret := "s", region := "cn-hangzhou" }

/-- An Aliyun transport whose lookup finds the host's record and whose
update call fails. -/
def alFailingUpdateTransport : Aliyun.Transport :=
  { newClientError := none, describeResult := .ok ⟨[⟨"@", "rec1"⟩]⟩,
    updateError := some "SDK.ServerError" }

/-- An Aliyun transport whose lookup returns one record matching host "@"
case-insensitively but whose RecordId is empty. -/
def alEmptyIDTransport : Aliyun.Transport :=
  { newClientError := none, describeResult := .ok ⟨[⟨"@", ""⟩]⟩,
    updateError := none }

/-- An Aliyun transport whose lookup returns a non-matching record before
the matching one, and whose update call succeeds. -/
def alTwoRecordTransport : Aliyun.Transport :=
  { newClientError := none, describeResult := .ok ⟨[⟨"sub", "r0"⟩, ⟨"@", "rec1"⟩]⟩,
    updateError := none }

/-- An Aliyun transport whose lookup returns no record matching host "@". -/
def alNoMatchTransport : Aliyun.Transport :=
  { newClientError := none, describeResult := .ok ⟨[⟨"sub", "r0"⟩]⟩,
    updateError := none }

/-- An Aliyun provider built from payload {"access_key_id":"k",
"access_secret":"s"} with an empty host. -/
def alEmptyHostProvider : Aliyun.Provider :=
  { domain := "example.com", host := "", ipVersion := .ip4or6,
    accessKeyID := "k", accessSecret := "s", region := "cn-hangzhou" }

/-! The claims. -/

/-- C1: for every DonDominio configuration and requested IP, a success
response whose glue record's family-matching IP field parses to an address
different from the requested one makes Update return the IP-mismatch error
and no confirmed IP.  (The Aliyun flow receives no reported-IP field in
any response it decodes, so only the DonDominio schema can state this
premise.) -/
theorem claim_C1_mismatch (p : DonDominio.Provider) (ip : IP)
    (resp : DonDominio.HTTPResponse) (rd : DonDominio.ResponseBody)
    (g : DonDominio.GlueRecord) (rest : List DonDominio.GlueRecord) (rip : IP)
    (hstatus : resp.statusCode = 200)
    (hbody : resp.body = .decoded rd)
    (hsuccess : rd.success = true)
    (hglue : rd.responseData.gluerecords = g :: rest)
    (hparse : parseIP (if (ipTo4 ip).isSome then g.ipv4 else g.ipv6) = some rip)
    (hne : ipEqual ip rip = false) :
    DonDominio.Update p ip (.ok resp) =
      .ret none (some (.errIPReceivedMismatch (ipString rip))) := by
  simp [DonDominio.Update, hstatus, hbody, hsuccess, hglue, hparse, hne]

/-- C1 witness: the spec's mismatch scenario, reported 203.0.113.9 for
requested 203.0.113.5. -/
theorem claim_C1_mismatch_witness :
    DonDominio.Update ddSpecProvider ip2030113v5 (.ok ddMismatchResponse) =
      .ret none (some (.errIPReceivedMismatch (ipString ip2030113v9))) :=
  claim_C1_mismatch ddSpecProvider ip2030113v5 ddMismatchResponse
    { success := true, errorCode := 0, errorCodeMsg := "",
      responseData := { gluerecords := [⟨"203.0.113.9", ""⟩] } }
    ⟨"203.0.113.9", ""⟩ [] ip2030113v9 rfl rfl rfl rfl (by decide) (by decide)

/-- C3: for every DonDominio configuration, a success response whose glue
record's family-matching IP field parses to an address equal to the
requested one makes Update return that IP with no error. -/
theorem claim_C3_roundtrip (p : DonDominio.Provider) (ip : IP)
    (resp : DonDominio.HTTPResponse) (rd : DonDominio.ResponseBody)
    (g : DonDominio.GlueRecord) (rest : List DonDominio.GlueRecord) (rip : IP)
    (hstatus : resp.statusCode = 200)
    (hbody : resp.body = .decoded rd)
    (hsuccess : rd.success = true)
    (hglue : rd.responseData.gluerecords = g :: rest)
    (hparse : parseIP (if (ipTo4 ip).isSome then g.ipv4 else g.ipv6) = some rip)
    (heq : ipEqual ip rip = true) :
    DonDominio.Update p ip (.ok resp) = .ret (some rip) none := by
  simp [DonDominio.Update, hstatus, hbody, hsuccess, hglue, hparse, heq]

/-- C3 witness: the spec's concrete scenario — configuration
{username:"u", password:"p", name:"n"}, host "@", requested 203.0.113.5,
glue record reporting "203.0.113.5" — construction succeeds and Update
returns 203.0.113.5 with no error. -/
theorem claim_C3_roundtrip_witness :
    DonDominio.New ddSpecSettings "example.com" "@" .ip4or6 = .ok ddSpecProvider ∧
    DonDominio.Update ddSpecProvider ip2030113v5 (.ok ddOkResponse) =
      .ret (some ip2030113v5) none :=
  ⟨rfl,
   claim_C3_roundtrip ddSpecProvider ip2030113v5 ddOkResponse
     { success := true, errorCode := 0, errorCodeMsg := "",
       responseData := { gluerecords := [⟨"203.0.113.5", ""⟩] } }
     ⟨"203.0.113.5", ""⟩ [] ip2030113v5 rfl rfl rfl rfl (by decide) (by decide)⟩

/-- C7: on an HTTP 200 response, a decoded body carrying success=false
yields the unsuccessful-response error with the provider's message and
code and no confirmed IP, while a body that fails to decode yields the
distinct unparseable-response error. -/
theorem claim_C7_app_failure (p : DonDominio.Provider) (ip : IP)
    (resp : DonDominio.HTTPResponse) (hstatus : resp.statusCode = 200) :
    (∀ rd : DonDominio.ResponseBody, resp.body = .decoded rd →
      rd.success = false →
      DonDominio.Update p ip (.ok resp) =
        .ret none (some (.errUnsuccessfulResponse rd.errorCodeMsg rd.errorCode))) ∧
    (∀ msg, resp.body = .malformed msg →
      DonDominio.Update p ip (.ok resp) =
        .ret none (some (.errUnmarshalResponse msg))) := by
  constructor
  · intro rd hbody hfail
    simp [DonDominio.Update, hstatus, hbody, hfail]
  · intro msg hbody
    simp [DonDominio.Update, hstatus, hbody]

/-- C7 witness: a success=false body yields the unsuccessful-response
error with its message and code; an undecodable body yields the
unparseable-response error. -/
theorem claim_C7_app_failure_witness :
    DonDominio.Update ddSpecProvider ip2030113v5 (.ok ddFailResponse) =
      .ret none (some (.errUnsuccessfulResponse "Invalid auth" 1010)) ∧
    DonDominio.Update ddSpecProvider ip2030113v5 (.ok ddMalformedResponse) =
      .ret none (some (.errUnmarshalResponse "unexpected EOF")) :=
  ⟨(claim_C7_app_failure ddSpecProvider ip2030113v5 ddFailResponse rfl).1
     { success := false, errorCode := 1010, errorCodeMsg := "Invalid auth",
       responseData := { gluerecords := [] } } rfl rfl,
   (claim_C7_app_failure ddSpecProvider ip2030113v5 ddMalformedResponse rfl).2
     "unexpected EOF" rfl⟩

/-- C9: at the failing input — HTTP 200, decoded body with success=true
and an empty gluerecords array — the DonDominio Update hits the
out-of-range index GlueRecords[0]: a Go runtime panic, not a typed
error, contradicting the error-taxonomy rule that no failure is fatal to
the process. -/
theorem claim_C9_empty_glue_panics :
    DonDominio.Update ddSpecProvider ip2030113v5 (.ok ddEmptyGlueResponse) =
      .panicked "index out of range [0] with length 0" := by decide

/-- C2 counterexample: the claim "Update never returns a non-nil IP
together with a non-nil error" fails on the Aliyun provider, whose Update
ends in `return ip, err`: when the final update call errors, the requested
IP (non-nil) is returned together with that non-nil error. -/
theorem claim_C2_counterexample :
    (Aliyun.Update alSpecProvider ip2030113v5 alFailingUpdateTransport).1 =
      .ret (some ip2030113v5) (some (.sdkError "SDK.ServerError")) ∧
    (some ip2030113v5 ≠ (none : Option IP)) ∧
    (some (UpdateError.sdkError "SDK.ServerError") ≠ (none : Option UpdateError)) := by
  decide

/-- C2 amended: whenever an Update returns a non-nil IP with its error
slot, a DonDominio return always pairs it with a nil error and the IP
equals the requested IP (net.IP.Equal); an Aliyun return always carries
exactly the requested IP in the IP slot, but (as the counterexample shows)
possibly together with the final update call's non-nil error. -/
theorem claim_C2_amended :
    (∀ (p : DonDominio.Provider) (ip : IP)
      (tr : Except String DonDominio.HTTPResponse)
      (newIP : IP) (e : Option UpdateError),
      DonDominio.Update p ip tr = .ret (some newIP) e →
      ipEqual ip newIP = true ∧ e = none) ∧
    (∀ (p : Aliyun.Provider) (ip : IP) (tr : Aliyun.Transport)
      (newIP : IP) (e : Option UpdateError),
      (Aliyun.Update p ip tr).1 = .ret (some newIP) e → newIP = ip) := by
  constructor
  · intro p ip tr newIP e h
    simp only [DonDominio.Update] at h
    repeat' split at h
    all_goals simp_all
  · intro p ip tr newIP e h
    simp only [Aliyun.Update] at h
    repeat' split at h
    all_goals simp_all

/-- C2 amended witness: a converged DonDominio update returns an IP equal
to the requested one with a nil error, and an Aliyun return's IP slot is
the requested IP. -/
theorem claim_C2_amended_witness :
    (ipEqual ip2030113v5 ip2030113v5 = true ∧
      (none : Option UpdateError) = none) ∧
    ip2030113v5 = ip2030113v5 :=
  ⟨claim_C2_amended.1 ddSpecProvider ip2030113v5 (.ok ddOkResponse)
     ip2030113v5 none (by decide),
   claim_C2_amended.2 alSpecProvider ip2030113v5 alFailingUpdateTransport
     ip2030113v5 (some (.sdkError "SDK.ServerError")) (by decide)⟩

/-- C4: the address family of the produced request depends solely on
whether the IP has a 4-byte form — DonDominio's form body populates the
ipv4 parameter exactly when it does and the ipv6 parameter exactly when it
does not (never both), and every update request the Aliyun flow issues has
record type A exactly under the same condition, else AAAA. -/
theorem claim_C4_family (p : DonDominio.Provider) (q : Aliyun.Provider)
    (ip : IP) (tr : Aliyun.Transport) :
    (((DonDominio.updateValues p ip).map Prod.fst).contains "ipv4"
        = (ipTo4 ip).isSome) ∧
    (((DonDominio.updateValues p ip).map Prod.fst).contains "ipv6"
        = !(ipTo4 ip).isSome) ∧
    ((Aliyun.Update q ip tr).2.all
        (fun r => r.Type_ == (if (ipTo4 ip).isSome then "A" else "AAAA"))
      = true) := by
  refine ⟨?_, ?_, ?_⟩
  · cases hip : (ipTo4 ip).isSome <;>
      simp [DonDominio.updateValues, hip]
  · cases hip : (ipTo4 ip).isSome <;>
      simp [DonDominio.updateValues, hip]
  · obtain ⟨nce, dr, ue⟩ := tr
    cases nce with
    | some e => simp [Aliyun.Update]
    | none =>
      cases dr with
      | error e => simp [Aliyun.Update]
      | ok resp =>
        by_cases hrid : Aliyun.findRecordID resp.record q.host = "" <;>
          simp [Aliyun.Update, hrid, Aliyun.recordType]

/-- C5: construction validates fields in declaration order and reports
only the first violated rule — DonDominio: username, password, name, then
the structural host-must-be-"@" rule (after the presence checks, on the
host as defaulted); Aliyun: access key ID, then access secret.  New takes
no transport argument, so no network call can be attempted. -/
theorem claim_C5_validation (es : DonDominio.ExtraSettings)
    (aes : Aliyun.ExtraSettings) (domain host : String) (ipv : IPVersion) :
    (es.username.length = 0 →
      DonDominio.New es domain host ipv = .error .errEmptyUsername) ∧
    (es.username.length ≠ 0 → es.password.length = 0 →
      DonDominio.New es domain host ipv = .error .errEmptyPassword) ∧
    (es.username.length ≠ 0 → es.password.length ≠ 0 → es.name.length = 0 →
      DonDominio.New es domain host ipv = .error .errEmptyName) ∧
    (es.username.length ≠ 0 → es.password.length ≠ 0 → es.name.length ≠ 0 →
      host.length ≠ 0 → host ≠ "@" →
      DonDominio.New es domain host ipv = .error .errHostOnlyAt) ∧
    (aes.access_key_id = "" →
      Aliyun.New aes domain host ipv = .error .errEmptyAccessKeyID) ∧
    (aes.access_key_id ≠ "" → aes.access_secret = "" →
      Aliyun.New aes domain host ipv = .error .errEmptyAccessKeySecret) := by
  refine ⟨?_, ?_, ?_, ?_, ?_, ?_⟩ <;> intros <;>
    simp_all [DonDominio.New, DonDominio.Provider.isValid,
      Aliyun.New, Aliyun.Provider.isValid, apply_ite]

/-- C5 witness: each empty field is reported as its own error kind, first
in declaration order, and the host rule fires only with all fields
present. -/
theorem claim_C5_validation_witness :
    DonDominio.New ⟨"", "", ""⟩ "example.com" "@" .ip4or6 =
      .error .errEmptyUsername ∧
    DonDominio.New ⟨"u", "", ""⟩ "example.com" "@" .ip4or6 =
      .error .errEmptyPassword ∧
    DonDominio.New ⟨"u", "p", ""⟩ "example.com" "@" .ip4or6 =
      .error .errEmptyName ∧
    DonDominio.New ⟨"u", "p", "n"⟩ "example.com" "www" .ip4or6 =
      .error .errHostOnlyAt ∧
    Aliyun.New ⟨"", "", ""⟩ "example.com" "@" .ip4or6 =
      .error .errEmptyAccessKeyID ∧
    Aliyun.New ⟨"k", "", ""⟩ "example.com" "@" .ip4or6 =
      .error .errEmptyAccessKeySecret :=
  ⟨(claim_C5_validation ⟨"", "", ""⟩ ⟨"", "", ""⟩ "example.com" "@" .ip4or6).1
     (by decide),
   (claim_C5_validation ⟨"u", "", ""⟩ ⟨"", "", ""⟩ "example.com" "@" .ip4or6).2.1
     (by decide) (by decide),
   (claim_C5_validation ⟨"u", "p", ""⟩ ⟨"", "", ""⟩ "example.com" "@" .ip4or6).2.2.1
     (by decide) (by decide) (by decide),
   (claim_C5_validation ⟨"u", "p", "n"⟩ ⟨"", "", ""⟩ "example.com" "www" .ip4or6).2.2.2.1
     (by decide) (by decide) (by decide) (by decide) (by decide),
   (claim_C5_validation ⟨"u", "p", "n"⟩ ⟨"", "", ""⟩ "example.com" "@" .ip4or6).2.2.2.2.1
     (by decide),
   (claim_C5_validation ⟨"u", "p", "n"⟩ ⟨"k", "", ""⟩ "example.com" "@" .ip4or6).2.2.2.2.2
     (by decide) (by decide)⟩

/-- C6 counterexample: the lookup response holds a record whose RR
matches the host "@" case-insensitively, yet — its RecordId being empty —
Update returns RecordNotFound and issues no update call, so the claim
that a match's identifier is the one used for the update fails here. -/
theorem claim_C6_counterexample :
    (∃ r ∈ ([⟨"@", ""⟩] : List Aliyun.Record),
      equalFold r.RR alSpecProvider.Host = true) ∧
    (Aliyun.Update alSpecProvider ip2030113v5 alEmptyIDTransport).1 =
      .ret none (some .errRecordNotFound) ∧
    (Aliyun.Update alSpecProvider ip2030113v5 alEmptyIDTransport).2 = [] := by
  decide

/-- C6 amended: when the client and lookup succeed, a response with no
case-insensitively matching record yields RecordNotFound and no update
call; when the first matching record's identifier is non-empty, that
identifier is the one used in the single issued update request; a first
match with an empty identifier is also treated as RecordNotFound with no
update call. -/
theorem claim_C6_amended (p : Aliyun.Provider) (ip : IP)
    (tr : Aliyun.Transport) (resp : Aliyun.DescribeDomainRecordsResponse)
    (hclient : tr.newClientError = none)
    (hdesc : tr.describeResult = .ok resp) :
    ((∀ r ∈ resp.record, equalFold r.RR p.host = false) →
      (Aliyun.Update p ip tr).1 = .ret none (some .errRecordNotFound) ∧
      (Aliyun.Update p ip tr).2 = []) ∧
    (∀ pre r post, resp.record = pre ++ r :: post →
      (∀ r' ∈ pre, equalFold r'.RR p.host = false) →
      equalFold r.RR p.host = true → r.RecordId ≠ "" →
      (Aliyun.Update p ip tr).2 =
        [{ Value := ipString ip, Type_ := Aliyun.recordType ip,
           RR := p.host, RecordId := r.RecordId }]) ∧
    (∀ pre r post, resp.record = pre ++ r :: post →
      (∀ r' ∈ pre, equalFold r'.RR p.host = false) →
      equalFold r.RR p.host = true → r.RecordId = "" →
      (Aliyun.Update p ip tr).1 = .ret none (some .errRecordNotFound) ∧
      (Aliyun.Update p ip tr).2 = []) := by
  refine ⟨?_, ?_, ?_⟩
  · intro hno
    have hid := findRecordID_of_no_match resp.record p.host hno
    simp [Aliyun.Update, hclient, hdesc, hid]
  · intro pre r post hsplit hpre hr hne
    have hid := findRecordID_first_match pre r post p.host hpre hr
    rw [← hsplit] at hid
    simp [Aliyun.Update, hclient, hdesc, hid, hne]
  · intro pre r post hsplit hpre hr hempty
    have hid := findRecordID_first_match pre r post p.host hpre hr
    rw [← hsplit] at hid
    rw [hempty] at hid
    simp [Aliyun.Update, hclient, hdesc, hid]

/-- C6 amended witness: a lookup with no matching record yields
RecordNotFound with no update call, and a lookup whose second record is
the first case-insensitive match ("@", id "rec1") issues exactly one
update request carrying that identifier. -/
theorem claim_C6_amended_witness :
    ((Aliyun.Update alSpecProvider ip2030113v5 alNoMatchTransport).1 =
        .ret none (some .errRecordNotFound) ∧
      (Aliyun.Update alSpecProvider ip2030113v5 alNoMatchTransport).2 = []) ∧
    (Aliyun.Update alSpecProvider ip2030113v5 alTwoRecordTransport).2 =
      [{ Value := ipString ip2030113v5, Type_ := Aliyun.recordType ip2030113v5,
         RR := "@", RecordId := "rec1" }] :=
  ⟨(claim_C6_amended alSpecProvider ip2030113v5 alNoMatchTransport
      ⟨[⟨"sub", "r0"⟩]⟩ rfl rfl).1 (by decide),
   (claim_C6_amended alSpecProvider ip2030113v5 alTwoRecordTransport
      ⟨[⟨"sub", "r0"⟩, ⟨"@", "rec1"⟩]⟩ rfl rfl).2.1
     [⟨"sub", "r0"⟩] ⟨"@", "rec1"⟩ [] rfl (by decide) (by decide) (by decide)⟩

/-- C8 counterexample: the Aliyun constructor keeps an empty host
verbatim — construction succeeds and Host() returns "", not the
bare-domain sentinel "@". -/
theorem claim_C8_counterexample :
    Aliyun.New ⟨"k", "s", ""⟩ "example.com" "" .ip4or6 =
      .ok alEmptyHostProvider ∧
    alEmptyHostProvider.Host = "" ∧ alEmptyHostProvider.Host ≠ "@" := by
  refine ⟨rfl, rfl, by decide⟩

/-- C8 amended: constructing DonDominio with an empty host yields a
provider whose Host() is the bare-domain sentinel "@"; constructing
Aliyun with an empty host stores it verbatim, so Host() is "". -/
theorem claim_C8_amended (es : DonDominio.ExtraSettings)
    (aes : Aliyun.ExtraSettings) (domain : String) (ipv : IPVersion) :
    (∀ p, DonDominio.New es domain "" ipv = .ok p → p.Host = "@") ∧
    (∀ q, Aliyun.New aes domain "" ipv = .ok q → q.Host = "") := by
  constructor
  · intro p h
    have h0 : ("" : String).length = 0 := rfl
    simp only [DonDominio.New, h0, if_pos] at h
    split at h
    · exact absurd h (by simp)
    · simp only [Except.ok.injEq] at h
      subst h
      rfl
  · intro q h
    simp only [Aliyun.New] at h
    split at h
    · exact absurd h (by simp)
    · simp only [Except.ok.injEq] at h
      subst h
      simp only [Aliyun.Provider.Host]
      split <;> rfl

/-- C8 amended witness: the DonDominio provider built with an empty host
reports "@"; the Aliyun provider built with an empty host reports "". -/
theorem claim_C8_amended_witness :
    ddSpecProvider.Host = "@" ∧ alEmptyHostProvider.Host = "" :=
  ⟨(claim_C8_amended ddSpecSettings ⟨"k", "s", ""⟩ "example.com" .ip4or6).1
     ddSpecProvider rfl,
   (claim_C8_amended ddSpecSettings ⟨"k", "s", ""⟩ "example.com" .ip4or6).2
     alEmptyHostProvider rfl⟩

/-- C10: a successful Aliyun construction takes every field verbatim from
its inputs, except that an empty region in the payload becomes
"cn-hangzhou" while a non-empty one is used verbatim. -/
theorem claim_C10_region (aes : Aliyun.ExtraSettings) (domain host : String)
    (ipv : IPVersion) (q : Aliyun.Provider)
    (h : Aliyun.New aes domain host ipv = .ok q) :
    q.region = (if aes.region = "" then "cn-hangzhou" else aes.region) ∧
    q.domain = domain ∧ q.host = host ∧ q.ipVersion = ipv ∧
    q.accessKeyID = aes.access_key_id ∧
    q.accessSecret = aes.access_secret := by
  simp only [Aliyun.New] at h
  split at h
  · exact absurd h (by simp)
  · simp only [Except.ok.injEq] at h
    subst h
    by_cases hr : aes.region = "" <;> simp [hr]

/-- C10 witness: an empty region defaults to "cn-hangzhou" and the other
fields are taken unchanged. -/
theorem claim_C10_region_witness :
    alSpecProvider.region =
      (if ("" : String) = "" then "cn-hangzhou" else "") ∧
    alSpecProvider.domain = "example.com" ∧ alSpecProvider.host = "@" ∧
    alSpecProvider.ipVersion = .ip4or6 ∧
    alSpecProvider.accessKeyID = "k" ∧ alSpecProvider.accessSecret = "s" :=
  claim_C10_region ⟨"k", "s", ""⟩ "example.com" "@" .ip4or6 alSpecProvider rfl
